import Mathlib

/-!
Verification of the A2A task/transport core of the orchestration-agent
repository: the message/task data model (src/models/task.py), the JSON-RPC
envelope (src/models/json_rpc.py, src/models/request.py), the in-memory task
manager (src/server/task_manager.py), the HTTP dispatch of the server
(src/server/server.py), the concrete send-task flow shared by
OrchestratorTaskManager (src/agents/host_agent/orchestrator.py) and
ExcelWhisperTaskManager (src/agents/excel_whisper_agent/task_manager.py),
and the discovery client (src/utilities/discovery.py).

The Python code is embedded shallowly: pydantic models become structures,
the task dictionary becomes an association list threaded through each
operation (the asyncio lock makes every public operation atomic, so each
operation is one pure state transition), `datetime.now()` values and the
reply text produced by the external LLM collaborator become parameters, and
code that can raise returns `Except`.
-/

namespace A2A

/-! ## Data model (src/models/task.py) -/

/-- `TextPart`: one fragment of a message; only the literal type tag "text"
exists today. -/
structure TextPart where
  type : String := "text"
  text : String
  deriving DecidableEq, Repr

/-- `Part = TextPart` (alias in src/models/task.py). -/
abbrev Part := TextPart

/-- `Message`: one entry of a task's history; `role` is the literal
"user" or "agent". -/
structure Message where
  role : String
  parts : List Part
  deriving DecidableEq, Repr

/-- `TaskStatus`: state string plus a creation timestamp
(`datetime.now()` is modelled as a `Nat` supplied by the caller). -/
structure TaskStatus where
  state : String
  timestamp : Nat
  deriving DecidableEq, Repr

/-- `Task`: id, current status, ordered message history. -/
structure Task where
  id : String
  status : TaskStatus
  history : List Message
  deriving DecidableEq, Repr

/-- `TaskState` enumeration (src/models/task.py). -/
inductive TaskState where
  | SUBMITTED
  | WORKING
  | INPUT_REQUIRED
  | COMPLETED
  | CANCELED
  | FAILED
  | UNKNOWN
  deriving DecidableEq, Repr

/-- The string value of each `TaskState` member. -/
def TaskState.value : TaskState → String
  | .SUBMITTED => "submitted"
  | .WORKING => "working"
  | .INPUT_REQUIRED => "input-required"
  | .COMPLETED => "completed"
  | .CANCELED => "canceled"
  | .FAILED => "failed"
  | .UNKNOWN => "unknown"

/-- A JSON value, as parsed from an HTTP body (no floats are needed by any
claim; ints cover the numerals that appear in the protocol). -/
inductive Json where
  | null
  | bool (b : Bool)
  | num (n : Int)
  | str (s : String)
  | arr (elems : List Json)
  | obj (fields : List (String × Json))

/-- `TaskSendParams` (src/models/task.py): parameters of `tasks/send`.
`sessionId` has a uuid default factory, so validation receives the fresh
value as a parameter; here the structure stores the resolved value. -/
structure TaskSendParams where
  id : String
  sessionId : String
  message : Message
  historyLength : Option Int := none
  metadata : Option (List (String × Json)) := none

/-- `TaskQueryParams` (src/models/task.py): `TaskIdParams` plus the
optional `historyLength`. -/
structure TaskQueryParams where
  id : String
  metadata : Option (List (String × Json)) := none
  historyLength : Option Int := none

/-! ## JSON-RPC envelope (src/models/json_rpc.py, src/models/request.py) -/

/-- A JSON-RPC message id: `int | str | None` in the Python models. -/
inductive RequestId where
  | num (n : Int)
  | str (s : String)
  | null
  deriving DecidableEq, Repr

/-- `JSONRPCError` (src/models/json_rpc.py): `code` and `message` are
required fields, `data` is optional. -/
structure JSONRPCError where
  code : Int
  message : String
  data : Option Json := none

/-- A plain dict offered to pydantic for the `error` field of a response:
each `JSONRPCError` field may be present or absent. -/
structure ErrorDict where
  code : Option Int := none
  message : Option String := none
  data : Option Json := none

/-- Pydantic validation of a plain dict against the `JSONRPCError` model:
`code` and `message` have no defaults, so a dict missing either one is
rejected with a ValidationError. -/
def JSONRPCError.validate (d : ErrorDict) : Except String JSONRPCError :=
  match d.code, d.message with
  | some c, some m => .ok { code := c, message := m, data := d.data }
  | none, _ => .error "validation error for JSONRPCError: code Field required"
  | _, none => .error "validation error for JSONRPCError: message Field required"

/-- `InternalError(message=...)` (src/models/json_rpc.py): code fixed at
-32603, no data. -/
def InternalError (message : String) : JSONRPCError :=
  { code := -32603, message := message, data := none }

/-- `JSONRPCResponse` with the `result` payload specialised to `Task`, the
shape shared by `SendTaskResponse` and `GetTaskResponse`
(src/models/request.py). Exactly one of `result`/`error` is set by the
code paths modelled here. -/
structure JSONRPCResponse where
  jsonrpc : String := "2.0"
  id : RequestId
  result : Option Task := none
  error : Option JSONRPCError := none

/-- `SendTaskResponse` (src/models/request.py). -/
abbrev SendTaskResponse := JSONRPCResponse

/-- `GetTaskResponse` (src/models/request.py). -/
abbrev GetTaskResponse := JSONRPCResponse

/-- `SendTaskRequest` (src/models/request.py): method literal
"tasks/send". -/
structure SendTaskRequest where
  jsonrpc : String := "2.0"
  id : RequestId
  method : String := "tasks/send"
  params : TaskSendParams

/-- `GetTaskRequest` (src/models/request.py): method literal "tasks/get". -/
structure GetTaskRequest where
  jsonrpc : String := "2.0"
  id : RequestId
  method : String := "tasks/get"
  params : TaskQueryParams

/-- The `A2ARequest` discriminated union (src/models/request.py). -/
inductive A2ARequestUnion where
  | send (req : SendTaskRequest)
  | get (req : GetTaskRequest)

/-! ## In-memory task store (src/server/task_manager.py)

`InMemoryTaskManager.tasks` is a Python dict keyed by task id, embedded as
an association list; `dictSet` mirrors dict assignment (replace in place
when the key exists, append otherwise). The asyncio lock makes each public
operation a single atomic state transition, so every operation takes the
dict and returns the updated dict. -/

/-- The task store: `self.tasks : Dict[str, Task]`. -/
abbrev TaskDict := List (String × Task)

/-- `self.tasks.get(key)`. -/
def dictGet : TaskDict → String → Option Task
  | [], _ => none
  | (k, v) :: rest, key => if k = key then some v else dictGet rest key

/-- `self.tasks[key] = t`: overwrite in place when present, append when
absent (Python dict insertion-order semantics). -/
def dictSet : TaskDict → String → Task → TaskDict
  | [], key, t => [(key, t)]
  | (k, v) :: rest, key, t =>
      if k = key then (k, t) :: rest else (k, v) :: dictSet rest key t

/-- `InMemoryTaskManager.upsert_task` (src/server/task_manager.py lines
101-116): absent id creates a task in state "submitted" with history
`[params.message]`; present id appends `params.message` to the stored
task's history (the returned object is the stored object). `now` is the
`datetime.now()` read by the fresh `TaskStatus`. -/
def upsert_task (now : Nat) (params : TaskSendParams) (tasks : TaskDict) :
    Task × TaskDict :=
  match dictGet tasks params.id with
  | none =>
      let task : Task :=
        { id := params.id
          status := { state := TaskState.SUBMITTED.value, timestamp := now }
          history := [params.message] }
      (task, dictSet tasks params.id task)
  | some task =>
      let task2 : Task := { task with history := task.history ++ [params.message] }
      (task2, dictSet tasks params.id task2)

/-- Python list slicing `xs[i:]`: a negative index counts from the end and
clamps at 0, a non-negative one clamps at the length. -/
def pySliceFrom {α : Type} (i : Int) (xs : List α) : List α :=
  if i < 0 then xs.drop (Int.toNat ((xs.length : Int) + i))
  else xs.drop i.toNat

/-- `InMemoryTaskManager.on_get_task` (src/server/task_manager.py lines
134-159). Unknown id builds `GetTaskResponse(error={"message": "找不到任務"})`;
pydantic validates that dict against `JSONRPCError`, whose required `code`
field is missing, so the construction raises (modelled as `Except.error`).
A found task is copied (`model_copy`), and when `historyLength` is given the
copy's history is rebound to the slice `history[-historyLength:]`; the
stored task is never written. -/
def on_get_task (request : GetTaskRequest) (tasks : TaskDict) :
    Except String GetTaskResponse × TaskDict :=
  match dictGet tasks request.params.id with
  | none =>
      match JSONRPCError.validate { message := some "找不到任務" } with
      | .ok err => (.ok { id := request.id, result := none, error := some err }, tasks)
      | .error e => (.error e, tasks)
  | some task =>
      -- task_copy = task.model_copy(); its history field is then rebound,
      -- which leaves the stored task untouched
      match request.params.historyLength with
      | some n =>
          (.ok { id := request.id
                 result := some { task with history := pySliceFrom (-n) task.history }
                 error := none }, tasks)
      | none =>
          (.ok { id := request.id
                 result := some { task with history := task.history }
                 error := none }, tasks)

/-- The concrete `on_send_task` flow shared verbatim by
`OrchestratorTaskManager` (src/agents/host_agent/orchestrator.py lines
242-266) and `ExcelWhisperTaskManager`
(src/agents/excel_whisper_agent/task_manager.py lines 16-31):
upsert the incoming message, read the user text (`message.parts[0].text`
raises IndexError on an empty parts list), invoke the external agent
(its reply text is the parameter `response_text`), append the agent reply
under the lock, set the status to "completed" (a fresh `TaskStatus`
reading `datetime.now()`, here `upd`), and return the full task. The
`task` local aliases the stored object, so its mutation updates the store. -/
def on_send_task (response_text : String) (now upd : Nat)
    (request : SendTaskRequest) (tasks : TaskDict) :
    Except String SendTaskResponse × TaskDict :=
  let r := upsert_task now request.params tasks
  let task := r.1
  let tasks1 := r.2
  match request.params.message.parts with
  | [] => (.error "IndexError: list index out of range", tasks1)
  | _ :: _ =>
      let reply : Message :=
        { role := "agent", parts := [{ type := "text", text := response_text }] }
      let task2 : Task :=
        { task with
          status := { state := TaskState.COMPLETED.value, timestamp := upd }
          history := task.history ++ [reply] }
      (.ok { id := request.id, result := some task2, error := none },
       dictSet tasks1 request.params.id task2)

/-! ## Request validation and HTTP dispatch (src/models/request.py,
src/server/server.py)

Pydantic's `A2ARequest.validate_python` is embedded as a function from the
parsed JSON body to `Except`: the discriminator is the `method` field, an
unrecognised or missing tag is a ValidationError, and the matched model's
fields are validated against their annotations (strict types, with the lax
numeric-string coercion for `int` fields; defaults as declared in the
models). -/

/-- Field lookup in a JSON object. -/
def Json.getField : Json → String → Option Json
  | .obj fields, key => fields.lookup key
  | _, _ => none

/-- Pydantic validation of a `str` field. -/
def validateStr : Json → Except String String
  | .str s => .ok s
  | _ => .error "Input should be a valid string"

/-- Pydantic (lax) validation of an `int` field: an int, or a numeric
string. -/
def validateIntLax : Json → Except String Int
  | .num n => .ok n
  | .str s =>
      match s.toInt? with
      | some n => .ok n
      | none => .error "Input should be a valid integer"
  | _ => .error "Input should be a valid integer"

/-- Validation of an optional `int | None` field of an object. -/
def validateOptIntField (j : Json) (key : String) : Except String (Option Int) :=
  match j.getField key with
  | none => .ok none
  | some .null => .ok none
  | some v => (validateIntLax v).map some

/-- Validation of an optional `dict[str, Any] | None` field of an object. -/
def validateOptMetadata (j : Json) (key : String) :
    Except String (Option (List (String × Json))) :=
  match j.getField key with
  | none => .ok none
  | some .null => .ok none
  | some (.obj kvs) => .ok (some kvs)
  | some _ => .error "Input should be a valid dictionary"

/-- Pydantic validation of a `TextPart`: `type` defaults to "text" and must
be the literal "text" when present; `text` is a required `str`. -/
def validateTextPart (j : Json) : Except String TextPart :=
  match j with
  | .obj _ => do
      let ty ←
        match j.getField "type" with
        | none => Except.ok "text"
        | some (.str "text") => Except.ok "text"
        | some _ => Except.error "Input should be text"
      let text ←
        match j.getField "text" with
        | some v => validateStr v
        | none => Except.error "Field required: text"
      .ok { type := ty, text := text }
  | _ => .error "Input should be a valid dictionary"

/-- Pydantic validation of a `Message`: `role` is the literal "user" or
"agent", `parts` is a required list of `Part`. -/
def validateMessage (j : Json) : Except String Message :=
  match j with
  | .obj _ => do
      let role ←
        match j.getField "role" with
        | some (.str "user") => Except.ok "user"
        | some (.str "agent") => Except.ok "agent"
        | some _ => Except.error "Input should be user or agent"
        | none => Except.error "Field required: role"
      let parts ←
        match j.getField "parts" with
        | some (.arr xs) => xs.mapM validateTextPart
        | some _ => Except.error "Input should be a valid list"
        | none => Except.error "Field required: parts"
      .ok { role := role, parts := parts }
  | _ => .error "Input should be a valid dictionary"

/-- Pydantic validation of `TaskSendParams`: required `id : str` and
`message : Message`; `sessionId : str` defaults to a fresh uuid hex
(passed in as `fresh_session`); optional `historyLength` and `metadata`. -/
def validateTaskSendParams (fresh_session : String) (j : Json) :
    Except String TaskSendParams :=
  match j with
  | .obj _ => do
      let pid ←
        match j.getField "id" with
        | some v => validateStr v
        | none => Except.error "Field required: id"
      let sessionId ←
        match j.getField "sessionId" with
        | some v => validateStr v
        | none => Except.ok fresh_session
      let message ←
        match j.getField "message" with
        | some v => validateMessage v
        | none => Except.error "Field required: message"
      let historyLength ← validateOptIntField j "historyLength"
      let metadata ← validateOptMetadata j "metadata"
      .ok { id := pid, sessionId := sessionId, message := message
            historyLength := historyLength, metadata := metadata }
  | _ => .error "Input should be a valid dictionary"

/-- Pydantic validation of `TaskQueryParams`: required `id : str`,
optional `metadata` and `historyLength`. -/
def validateTaskQueryParams (j : Json) : Except String TaskQueryParams :=
  match j with
  | .obj _ => do
      let pid ←
        match j.getField "id" with
        | some v => validateStr v
        | none => Except.error "Field required: id"
      let metadata ← validateOptMetadata j "metadata"
      let historyLength ← validateOptIntField j "historyLength"
      .ok { id := pid, metadata := metadata, historyLength := historyLength }
  | _ => .error "Input should be a valid dictionary"

/-- Validation of the `jsonrpc` field: literal "2.0" with default "2.0". -/
def validateJsonrpc (j : Json) : Except String String :=
  match j.getField "jsonrpc" with
  | none => .ok "2.0"
  | some (.str "2.0") => .ok "2.0"
  | some _ => .error "Input should be 2.0"

/-- Validation of the message `id` field, `int | str | None`, whose default
factory yields a fresh uuid hex string (`fresh_id`). -/
def validateRequestId (fresh_id : String) (j : Json) : Except String RequestId :=
  match j.getField "id" with
  | none => .ok (.str fresh_id)
  | some .null => .ok .null
  | some (.num n) => .ok (.num n)
  | some (.str s) => .ok (.str s)
  | some _ => .error "Input should be a valid integer, string or null"

/-- `A2ARequest.validate_python` (src/models/request.py lines 62-71): the
discriminated union over the `method` field. Only "tasks/send" and
"tasks/get" are recognised tags; anything else is a ValidationError before
any handler runs. -/
def A2ARequest_validate_python (fresh_id fresh_session : String) (body : Json) :
    Except String A2ARequestUnion :=
  match body with
  | .obj _ =>
      match body.getField "method" with
      | some (.str "tasks/send") => do
          let rpc ← validateJsonrpc body
          let rid ← validateRequestId fresh_id body
          let params ←
            match body.getField "params" with
            | some v => validateTaskSendParams fresh_session v
            | none => Except.error "Field required: params"
          .ok (.send { jsonrpc := rpc, id := rid, method := "tasks/send", params := params })
      | some (.str "tasks/get") => do
          let rpc ← validateJsonrpc body
          let rid ← validateRequestId fresh_id body
          let params ←
            match body.getField "params" with
            | some v => validateTaskQueryParams v
            | none => Except.error "Field required: params"
          .ok (.get { jsonrpc := rpc, id := rid, method := "tasks/get", params := params })
      | some _ => .error "Input tag does not match any of the expected tags"
      | none => .error "Unable to extract tag using discriminator method"
  | _ => .error "Input should be a valid dictionary"

/-- The HTTP reply of the POST "/" route: status code plus the JSON-RPC
body the route serialises. -/
structure HttpReply where
  status : Nat
  body : JSONRPCResponse

/-- `A2AServer.handle_request` (src/server/server.py lines 84-107): parse
and validate the body against `A2ARequest`; dispatch a `SendTaskRequest`
to `task_manager.on_send_task`; raise ValueError for any other recognised
variant; on any exception reply 400 with
`JSONRPCResponse(id=None, error=InternalError(message=str(e)))`. The
task store is threaded through, so the 400 paths also show which state
changes (if any) happened before the exception. -/
def handle_request (response_text : String) (fresh_id fresh_session : String)
    (now upd : Nat) (body : Json) (tasks : TaskDict) : HttpReply × TaskDict :=
  match A2ARequest_validate_python fresh_id fresh_session body with
  | .error e =>
      (⟨400, { id := .null, result := none, error := some (InternalError e) }⟩, tasks)
  | .ok (.send req) =>
      match on_send_task response_text now upd req tasks with
      | (.ok resp, tasks1) => (⟨200, resp⟩, tasks1)
      | (.error e, tasks1) =>
          (⟨400, { id := .null, result := none, error := some (InternalError e) }⟩, tasks1)
  | .ok (.get _) =>
      -- raise ValueError(f"不支援的 A2A 方法: {type(json_rpc)}"), caught below
      (⟨400,
        { id := .null, result := none,
          error := some (InternalError "不支援的 A2A 方法: GetTaskRequest") }⟩,
       tasks)

/-! ## Discovery client (src/utilities/discovery.py) -/

/-- Modelled from the spec: `AgentCard` (src/models/agent.py is imported by
discovery.py and server.py but absent from the source tree). Spec section 3:
`{name, description, url, version, capabilities, skills[],
defaultInputModes[], defaultOutputModes[]}`; capabilities is a set of
boolean flags such as streaming. Discovery treats cards as opaque parsed
values, so only the field list matters here. -/
structure AgentCard where
  name : String
  description : String
  url : String
  version : String
  capabilities : List (String × Bool)
  skills : List String
  defaultInputModes : List String
  defaultOutputModes : List String
  deriving DecidableEq, Repr

/-- Python `base.rstrip("/")`: strip trailing slashes. -/
def rstripSlash (s : String) : String :=
  String.mk ((s.toList.reverse.dropWhile (fun c => c == '/')).reverse)

/-- The probed discovery endpoint for a base URL:
`base.rstrip("/") + "/.well-known/agent.json"`. -/
def discoveryUrl (base : String) : String :=
  rstripSlash base ++ "/.well-known/agent.json"

/-- The body of the loop in `DiscoveryClient.list_agent_cards`
(src/utilities/discovery.py lines 87-108) with its `cards` accumulator:
probing a URL is the external HTTP GET + `AgentCard.model_validate`,
modelled by the oracle `probe` (an `Except.error` is any non-2xx response,
timeout or unparseable body — the loop's `except` logs and continues). -/
def list_agent_cards_loop (probe : String → Except String AgentCard) :
    List String → List AgentCard → List AgentCard
  | [], cards => cards
  | base :: rest, cards =>
      match probe (discoveryUrl base) with
      | .ok card => list_agent_cards_loop probe rest (cards ++ [card])
      | .error _ => list_agent_cards_loop probe rest cards

/-- `DiscoveryClient.list_agent_cards`: run the loop over the registry with
an empty accumulator. -/
def list_agent_cards (probe : String → Except String AgentCard)
    (base_urls : List String) : List AgentCard :=
  list_agent_cards_loop probe base_urls []

/-- `run_upserts`: a sequence of `upsert_task` calls, each with its own
`datetime.now()` reading, applied in lock-acquisition order (the asyncio
lock serialises them). -/
def run_upserts : List (Nat × TaskSendParams) → TaskDict → TaskDict
  | [], tasks => tasks
  | (now, p) :: rest, tasks => run_upserts rest (upsert_task now p tasks).2

/-- The messages that a call sequence sends to one task id, in call order. -/
def msgsFor (calls : List (Nat × TaskSendParams)) (tid : String) : List Message :=
  (calls.filter (fun c => c.2.id == tid)).map (fun c => c.2.message)

/-- The history a task id holds after a call sequence, given what the store
held before: no calls on a fresh id leave it absent, otherwise the sent
messages extend whatever history was already stored. -/
def histAfter : Option Task → List Message → Option (List Message)
  | none, [] => none
  | none, m :: ms => some (m :: ms)
  | some t, ms => some (t.history ++ ms)

/-! ## Sample inputs used by witnesses and concrete scenarios -/

/-- A concrete user message with one text part. -/
def userMsg (s : String) : Message := { role := "user", parts := [{ text := s }] }

/-- Concrete `tasks/send` parameters. -/
def sendParams (tid s : String) : TaskSendParams :=
  { id := tid, sessionId := "session-1", message := userMsg s }

/-- A concrete stored task in state "submitted". -/
def storedTask (tid : String) (history : List Message) : Task :=
  { id := tid, status := { state := "submitted", timestamp := 0 }, history := history }

/-- A concrete `AgentCard` for discovery scenarios. -/
def sampleCard (nm : String) : AgentCard :=
  { name := nm, description := "demo agent", url := "http://" ++ nm, version := "1.0.0"
    capabilities := [("streaming", false)], skills := ["skill-1"]
    defaultInputModes := ["text"], defaultOutputModes := ["text"] }

/-- A probe over a three-entry registry: the middle URL times out, the two
others answer with valid cards. -/
def probe3 : String → Except String AgentCard := fun url =>
  if url = "http://a/.well-known/agent.json" then .ok (sampleCard "a")
  else if url = "http://c/.well-known/agent.json" then .ok (sampleCard "c")
  else .error "timeout"

/-- A POST body whose method is not a recognised tag of `A2ARequest`, and
which carries the message id 5. -/
def badMethodBody : Json :=
  .obj [("jsonrpc", .str "2.0"), ("id", .num 5),
        ("method", .str "tasks/nonexistent"), ("params", .obj [])]

/-- A POST body whose method is "tasks/send" but whose params are missing
the required `message` field. -/
def badParamsBody : Json :=
  .obj [("jsonrpc", .str "2.0"), ("id", .num 7),
        ("method", .str "tasks/send"), ("params", .obj [("id", .str "t1")])]

/-- A well-formed "tasks/get" POST body carrying the message id 9: it
validates, but the server dispatches only `SendTaskRequest` and raises
ValueError for it (src/server/server.py line 100). -/
def getMethodBody : Json :=
  .obj [("jsonrpc", .str "2.0"), ("id", .num 9),
        ("method", .str "tasks/get"), ("params", .obj [("id", .str "t1")])]

/-- A well-formed "tasks/send" POST body (message id 11) whose message has
an empty `parts` list: it validates and reaches `on_send_task`, where
`_get_user_text` raises IndexError reading `parts[0]`. -/
def emptyPartsBody : Json :=
  .obj [("jsonrpc", .str "2.0"), ("id", .num 11),
        ("method", .str "tasks/send"),
        ("params", .obj [("id", .str "t1"), ("sessionId", .str "s1"),
          ("message", .obj [("role", .str "user"), ("parts", .arr [])])])]

/-! ## Store lemmas -/

theorem dictGet_dictSet_self (tasks : TaskDict) (key : String) (t : Task) :
    dictGet (dictSet tasks key t) key = some t := by
  induction tasks with
  | nil => simp [dictGet, dictSet]
  | cons kv rest ih =>
      obtain ⟨k, v⟩ := kv
      by_cases h : k = key
      · simp [dictGet, dictSet, h]
      · simp [dictGet, dictSet, h, ih]

theorem dictGet_dictSet_ne (tasks : TaskDict) (key key2 : String) (t : Task)
    (h : key ≠ key2) : dictGet (dictSet tasks key t) key2 = dictGet tasks key2 := by
  induction tasks with
  | nil => simp [dictGet, dictSet, h]
  | cons kv rest ih =>
      obtain ⟨k, v⟩ := kv
      by_cases hk : k = key
      · subst hk
        simp [dictGet, dictSet, h]
      · simp [dictGet, dictSet, hk, ih]

/-- `on_get_task` is a pure read: the store it returns is the store it was
given, on every branch. -/
theorem on_get_task_tasks_unchanged (request : GetTaskRequest) (tasks : TaskDict) :
    (on_get_task request tasks).2 = tasks := by
  unfold on_get_task
  cases dictGet tasks request.params.id <;>
    cases request.params.historyLength <;> rfl

/-- `upsert_task` touches no key other than `params.id`. -/
theorem upsert_task_get_other (now : Nat) (params : TaskSendParams)
    (tasks : TaskDict) (tid : String) (h : params.id ≠ tid) :
    dictGet (upsert_task now params tasks).2 tid = dictGet tasks tid := by
  unfold upsert_task
  cases dictGet tasks params.id <;> simp [dictGet_dictSet_ne _ _ _ _ h]

/-! ## Claim theorems -/

/-- C1: `upsert_task` with an absent id creates and stores a task in state
"submitted" whose history is exactly `[params.message]`; with a present id
it appends `params.message` to the stored history, leaves the status (in
particular the state) unchanged, and the returned task is the stored one. -/
theorem upsert_task_spec (now : Nat) (params : TaskSendParams) (tasks : TaskDict) :
    (dictGet tasks params.id = none →
      (upsert_task now params tasks).1.status.state = "submitted" ∧
      (upsert_task now params tasks).1.history = [params.message] ∧
      dictGet (upsert_task now params tasks).2 params.id =
        some (upsert_task now params tasks).1) ∧
    (∀ t : Task, dictGet tasks params.id = some t →
      (upsert_task now params tasks).1.history = t.history ++ [params.message] ∧
      (upsert_task now params tasks).1.status = t.status ∧
      dictGet (upsert_task now params tasks).2 params.id =
        some (upsert_task now params tasks).1) := by
  constructor
  · intro h
    simp [upsert_task, h, TaskState.value, dictGet_dictSet_self]
  · intro t h
    simp [upsert_task, h, dictGet_dictSet_self]

/-- Witness for C1: a first `upsert_task` on the empty store creates the
task, a second on the produced store appends to it. -/
theorem upsert_task_spec_witness :
    ((upsert_task 0 (sendParams "t1" "hello") []).1.status.state = "submitted" ∧
      (upsert_task 0 (sendParams "t1" "hello") []).1.history =
        [(sendParams "t1" "hello").message] ∧
      dictGet (upsert_task 0 (sendParams "t1" "hello") []).2 (sendParams "t1" "hello").id =
        some (upsert_task 0 (sendParams "t1" "hello") []).1) ∧
    ((upsert_task 1 (sendParams "t1" "again")
        (upsert_task 0 (sendParams "t1" "hello") []).2).1.history =
      (upsert_task 0 (sendParams "t1" "hello") []).1.history ++
        [(sendParams "t1" "again").message] ∧
      (upsert_task 1 (sendParams "t1" "again")
        (upsert_task 0 (sendParams "t1" "hello") []).2).1.status =
          (upsert_task 0 (sendParams "t1" "hello") []).1.status) := by
  refine ⟨(upsert_task_spec 0 (sendParams "t1" "hello") []).1 rfl, ?_⟩
  have h := (upsert_task_spec 1 (sendParams "t1" "again")
    (upsert_task 0 (sendParams "t1" "hello") []).2).2
    (upsert_task 0 (sendParams "t1" "hello") []).1 (by rfl)
  exact ⟨h.1, h.2.1⟩

/-- C3 (the code at the claim's failing input): `on_get_task` for an id the
store does not hold does not return an error response — constructing
`GetTaskResponse(error={"message": "找不到任務"})` fails pydantic validation
because the required `code` field of `JSONRPCError` is missing, so the call
raises instead of returning. -/
theorem on_get_task_unknown_id_raises :
    (on_get_task { id := .str "req-1", params := { id := "missing" } } []).1 =
      Except.error "validation error for JSONRPCError: code Field required" := rfl

/-- After any sequence of upserts, the history stored at `tid` is what was
there before extended by exactly the messages the sequence sent to `tid`,
in call order. -/
theorem run_upserts_get_map (calls : List (Nat × TaskSendParams)) (tid : String) :
    ∀ tasks : TaskDict,
      (dictGet (run_upserts calls tasks) tid).map Task.history =
        histAfter (dictGet tasks tid) (msgsFor calls tid) := by
  induction calls with
  | nil =>
      intro tasks
      cases h : dictGet tasks tid <;> simp [run_upserts, msgsFor, histAfter, h]
  | cons c rest ih =>
      intro tasks
      obtain ⟨now, p⟩ := c
      rw [run_upserts, ih]
      by_cases hid : p.id = tid
      · subst hid
        cases h : dictGet tasks p.id with
        | none =>
            simp [upsert_task, h, dictGet_dictSet_self, msgsFor, histAfter]
        | some t =>
            simp [upsert_task, h, dictGet_dictSet_self, msgsFor, histAfter]
      · rw [upsert_task_get_other _ _ _ _ hid]
        simp [msgsFor, hid]

/-- C5: for any call sequence that sends messages `m1..mN` to a task id the
store does not yet hold — arbitrarily interleaved with calls on other ids —
the stored history at that id afterwards is exactly `[m1, ..., mN]` in call
order. -/
theorem upsert_history_append_only (calls : List (Nat × TaskSendParams))
    (tasks : TaskDict) (tid : String)
    (hfresh : dictGet tasks tid = none) (hsome : msgsFor calls tid ≠ []) :
    (dictGet (run_upserts calls tasks) tid).map Task.history =
      some (msgsFor calls tid) := by
  rw [run_upserts_get_map, hfresh]
  cases h : msgsFor calls tid with
  | nil => exact absurd h hsome
  | cons m ms => simp [histAfter]

/-- Witness for C5: three calls on "t1" interleaved with one on "t2" leave
"t1" holding exactly the three "t1" messages in call order. -/
theorem upsert_history_append_only_witness :
    msgsFor
        [(0, sendParams "t1" "m1"), (1, sendParams "t2" "x"),
         (2, sendParams "t1" "m2"), (3, sendParams "t1" "m3")] "t1" ≠ [] ∧
    (dictGet
        (run_upserts
          [(0, sendParams "t1" "m1"), (1, sendParams "t2" "x"),
           (2, sendParams "t1" "m2"), (3, sendParams "t1" "m3")] []) "t1").map
        Task.history =
      some (msgsFor
        [(0, sendParams "t1" "m1"), (1, sendParams "t2" "x"),
         (2, sendParams "t1" "m2"), (3, sendParams "t1" "m3")] "t1") := by
  refine ⟨by decide, ?_⟩
  exact upsert_history_append_only _ [] "t1" rfl (by decide)

/-- C9: `on_get_task` is an idempotent read — calling it again with the
same request on the store state left by the first call yields the very same
response (and store). -/
theorem on_get_task_idempotent (request : GetTaskRequest) (tasks : TaskDict) :
    on_get_task request ((on_get_task request tasks).2) = on_get_task request tasks := by
  rw [on_get_task_tasks_unchanged]

/-- C4: truncation in `on_get_task` is non-destructive. On a task with five
stored messages, a fetch with `historyLength = 1` answers with a copy
holding only the last message; a following fetch of the same id without
`historyLength` still answers with all five; and `on_get_task` never
changes the store. -/
theorem on_get_task_truncation_nondestructive
    (tasks : TaskDict) (tid : String) (t : Task) (m1 m2 m3 m4 m5 : Message)
    (rid1 rid2 : RequestId)
    (hget : dictGet tasks tid = some t)
    (hh : t.history = [m1, m2, m3, m4, m5]) :
    (on_get_task { id := rid1, params := { id := tid, historyLength := some 1 } } tasks).1 =
      .ok { id := rid1, result := some { t with history := [m5] }, error := none } ∧
    (on_get_task { id := rid2, params := { id := tid } }
        ((on_get_task { id := rid1, params := { id := tid, historyLength := some 1 } } tasks).2)).1 =
      .ok { id := rid2, result := some t, error := none } ∧
    ∀ (request : GetTaskRequest) (ts : TaskDict), (on_get_task request ts).2 = ts := by
  refine ⟨?_, ?_, fun request ts => on_get_task_tasks_unchanged request ts⟩
  · simp [on_get_task, hget, hh, pySliceFrom]
  · rw [on_get_task_tasks_unchanged]
    simp [on_get_task, hget]

/-- Witness for C4 on a concrete store holding a five-message task. -/
theorem on_get_task_truncation_nondestructive_witness :
    (on_get_task
        { id := .str "r1", params := { id := "t1", historyLength := some 1 } }
        [("t1", storedTask "t1"
          [userMsg "1", userMsg "2", userMsg "3", userMsg "4", userMsg "5"])]).1 =
      .ok { id := .str "r1"
            result := some { storedTask "t1"
              [userMsg "1", userMsg "2", userMsg "3", userMsg "4", userMsg "5"] with
                history := [userMsg "5"] }
            error := none } ∧
    (on_get_task { id := .str "r2", params := { id := "t1" } }
        ((on_get_task
          { id := .str "r1", params := { id := "t1", historyLength := some 1 } }
          [("t1", storedTask "t1"
            [userMsg "1", userMsg "2", userMsg "3", userMsg "4", userMsg "5"])]).2)).1 =
      .ok { id := .str "r2"
            result := some (storedTask "t1"
              [userMsg "1", userMsg "2", userMsg "3", userMsg "4", userMsg "5"])
            error := none } := by
  have h := on_get_task_truncation_nondestructive
    [("t1", storedTask "t1"
      [userMsg "1", userMsg "2", userMsg "3", userMsg "4", userMsg "5"])]
    "t1"
    (storedTask "t1" [userMsg "1", userMsg "2", userMsg "3", userMsg "4", userMsg "5"])
    (userMsg "1") (userMsg "2") (userMsg "3") (userMsg "4") (userMsg "5")
    (.str "r1") (.str "r2") rfl rfl
  exact ⟨h.1, h.2.1⟩

/-- C10: `historyLength = 0` does not limit the returned history — the
slice `history[-0:]` is `history[0:]`, the whole list — while any
`historyLength = n` with `n ≥ 1` returns exactly the last
`min n (length history)` messages. -/
theorem on_get_task_historyLength_zero
    (tasks : TaskDict) (tid : String) (t : Task) (rid : RequestId)
    (hget : dictGet tasks tid = some t) :
    ((on_get_task { id := rid, params := { id := tid, historyLength := some 0 } } tasks).1 =
      .ok { id := rid, result := some t, error := none }) ∧
    (∀ n : Int, 1 ≤ n →
      (on_get_task { id := rid, params := { id := tid, historyLength := some n } } tasks).1 =
        .ok { id := rid
              result := some { t with history := t.history.drop (t.history.length - n.toNat) }
              error := none }) := by
  constructor
  · simp [on_get_task, hget, pySliceFrom]
  · intro n hn
    have hlt : -n < (0 : Int) := by omega
    have htn : Int.toNat ((t.history.length : Int) + -n) = t.history.length - n.toNat := by
      omega
    simp [on_get_task, hget, pySliceFrom, hlt, htn]

/-- Witness for C10 on a three-message task: `historyLength = 0` returns
all three messages, `historyLength = 2` returns the last two. -/
theorem on_get_task_historyLength_zero_witness :
    ((on_get_task { id := .str "r0", params := { id := "t1", historyLength := some 0 } }
        [("t1", storedTask "t1" [userMsg "1", userMsg "2", userMsg "3"])]).1 =
      .ok { id := .str "r0"
            result := some (storedTask "t1" [userMsg "1", userMsg "2", userMsg "3"])
            error := none }) ∧
    ((on_get_task { id := .str "r0", params := { id := "t1", historyLength := some 2 } }
        [("t1", storedTask "t1" [userMsg "1", userMsg "2", userMsg "3"])]).1 =
      .ok { id := .str "r0"
            result := some { storedTask "t1" [userMsg "1", userMsg "2", userMsg "3"] with
              history := [userMsg "2", userMsg "3"] }
            error := none }) := by
  have h := on_get_task_historyLength_zero
    [("t1", storedTask "t1" [userMsg "1", userMsg "2", userMsg "3"])] "t1"
    (storedTask "t1" [userMsg "1", userMsg "2", userMsg "3"]) (.str "r0") rfl
  refine ⟨h.1, ?_⟩
  have h2 := h.2 2 (by decide)
  simpa [storedTask, userMsg] using h2

/-- C2: a `tasks/send` flow against a store not yet holding the id. The
task is in state "submitted" right after `upsert_task`; after the full
`on_send_task` the stored task (also returned as the RPC result) is in
state "completed" with a two-message history: the user message followed by
the agent reply, which has role "agent" and a single text part carrying
the collaborator's reply text. -/
theorem on_send_task_end_to_end
    (response_text : String) (now upd : Nat) (request : SendTaskRequest)
    (tasks : TaskDict)
    (hfresh : dictGet tasks request.params.id = none)
    (hparts : request.params.message.parts ≠ []) :
    (upsert_task now request.params tasks).1.status.state = "submitted" ∧
    (∃ t : Task,
      (on_send_task response_text now upd request tasks).1 =
        .ok { id := request.id, result := some t, error := none } ∧
      dictGet (on_send_task response_text now upd request tasks).2 request.params.id =
        some t ∧
      t.status.state = "completed" ∧
      t.history =
        [request.params.message,
         { role := "agent", parts := [{ type := "text", text := response_text }] }] ∧
      t.history.length = 2) := by
  constructor
  · simp [upsert_task, hfresh, TaskState.value]
  · obtain ⟨p, ps, hp⟩ : ∃ p ps, request.params.message.parts = p :: ps := by
      cases hc : request.params.message.parts with
      | nil => exact absurd hc hparts
      | cons p ps => exact ⟨p, ps, rfl⟩
    refine ⟨{ id := request.params.id
              status := { state := "completed", timestamp := upd }
              history :=
                [request.params.message,
                 { role := "agent", parts := [{ type := "text", text := response_text }] }] },
            ?_, ?_, rfl, rfl, rfl⟩
    · simp [on_send_task, upsert_task, hfresh, hp, TaskState.value]
    · simp [on_send_task, upsert_task, hfresh, hp, TaskState.value, dictGet_dictSet_self]

/-- Witness for C2: the spec's own scenario, id "t1" and user text "hello"
against the empty store. -/
theorem on_send_task_end_to_end_witness :
    (upsert_task 0 (sendParams "t1" "hello") []).1.status.state = "submitted" ∧
    (∃ t : Task,
      (on_send_task "hi there" 0 1
          { id := .str "r1", params := sendParams "t1" "hello" } []).1 =
        .ok { id := .str "r1", result := some t, error := none } ∧
      dictGet (on_send_task "hi there" 0 1
          { id := .str "r1", params := sendParams "t1" "hello" } []).2 "t1" = some t ∧
      t.status.state = "completed" ∧
      t.history =
        [(sendParams "t1" "hello").message,
         { role := "agent", parts := [{ type := "text", text := "hi there" }] }] ∧
      t.history.length = 2) :=
  on_send_task_end_to_end "hi there" 0 1
    { id := .str "r1", params := sendParams "t1" "hello" } [] rfl (by decide)

/-- C6: whenever validation of the POST body against the `A2ARequest`
union fails — unrecognised method tag, or params not matching the matched
method's schema — the server replies HTTP 400 with a JSON-RPC error
envelope (`result` unset, `error` set with code -32603 and the stringified
exception as message), and no handler runs: the store is unchanged. -/
theorem handle_request_invalid_yields_400
    (response_text fresh_id fresh_session : String) (now upd : Nat)
    (body : Json) (tasks : TaskDict) (e : String)
    (hval : A2ARequest_validate_python fresh_id fresh_session body = .error e) :
    handle_request response_text fresh_id fresh_session now upd body tasks =
      (⟨400, { id := .null, result := none, error := some (InternalError e) }⟩, tasks) := by
  simp [handle_request, hval]

/-- Witness for C6: an unknown method ("tasks/nonexistent") and a
"tasks/send" whose params lack the required `message` field both yield a
400 error envelope and leave the store untouched. -/
theorem handle_request_invalid_yields_400_witness :
    A2ARequest_validate_python "fid" "fs" badMethodBody =
      .error "Input tag does not match any of the expected tags" ∧
    handle_request "reply" "fid" "fs" 0 0 badMethodBody [] =
      (⟨400, { id := .null, result := none,
               error := some (InternalError "Input tag does not match any of the expected tags") }⟩,
       []) ∧
    A2ARequest_validate_python "fid" "fs" badParamsBody =
      .error "Field required: message" ∧
    handle_request "reply" "fid" "fs" 0 0 badParamsBody [] =
      (⟨400, { id := .null, result := none,
               error := some (InternalError "Field required: message") }⟩,
       []) :=
  ⟨rfl,
   handle_request_invalid_yields_400 "reply" "fid" "fs" 0 0 badMethodBody [] _ rfl,
   rfl,
   handle_request_invalid_yields_400 "reply" "fid" "fs" 0 0 badParamsBody [] _ rfl⟩

/-- The discovery loop appends each successfully probed card to its
accumulator and skips failures. -/
theorem list_agent_cards_loop_eq (probe : String → Except String AgentCard)
    (base_urls : List String) :
    ∀ cards : List AgentCard,
      list_agent_cards_loop probe base_urls cards =
        cards ++ base_urls.filterMap (fun base => (probe (discoveryUrl base)).toOption) := by
  induction base_urls with
  | nil => intro cards; simp [list_agent_cards_loop]
  | cons b rest ih =>
      intro cards
      cases h : probe (discoveryUrl b) <;>
        simp [list_agent_cards_loop, h, ih, Except.toOption]

/-- C7: `list_agent_cards` returns exactly the successfully probed cards,
in registry order and without deduplication (it is the `filterMap` of the
probe over the registry, which keeps duplicates); in particular, on a
three-entry registry whose middle URL fails, it returns the two cards of
the succeeding entries in their registry order. -/
theorem list_agent_cards_spec :
    (∀ (probe : String → Except String AgentCard) (base_urls : List String),
      list_agent_cards probe base_urls =
        base_urls.filterMap (fun base => (probe (discoveryUrl base)).toOption)) ∧
    list_agent_cards probe3 ["http://a", "http://b/", "http://c"] =
      [sampleCard "a", sampleCard "c"] := by
  constructor
  · intro probe base_urls
    simpa using list_agent_cards_loop_eq probe base_urls []
  · decide

/-- C8 counterexample: a request carrying id 5 whose method is not
recognised gets a server response whose id is null, not 5 — the server's
error envelope does not echo the request's id. -/
theorem handle_request_error_id_not_echoed :
    badMethodBody.getField "id" = some (.num 5) ∧
    (handle_request "reply" "fid" "fs" 0 0 badMethodBody []).1.body.id = RequestId.null ∧
    (handle_request "reply" "fid" "fs" 0 0 badMethodBody []).1.body.id ≠ RequestId.num 5 := by
  exact ⟨rfl, rfl, by decide⟩

/-- C8 amended: responses built by the task-manager handlers
(`on_get_task`, the concrete `on_send_task`) echo the request's id, but
whenever handling a request fails — validation failure, the ValueError the
server raises for a recognised-but-undispatched `tasks/get`, or an
exception escaping the send handler — the 400 error envelope the server's
exception handler builds carries id null regardless of the request's id. -/
theorem response_id_echo_amended :
    (∀ (request : GetTaskRequest) (tasks : TaskDict) (resp : GetTaskResponse),
        (on_get_task request tasks).1 = .ok resp → resp.id = request.id) ∧
    (∀ (response_text : String) (now upd : Nat) (request : SendTaskRequest)
        (tasks : TaskDict) (resp : SendTaskResponse),
        (on_send_task response_text now upd request tasks).1 = .ok resp →
          resp.id = request.id) ∧
    (∀ (response_text fresh_id fresh_session : String) (now upd : Nat)
        (body : Json) (tasks : TaskDict),
        (handle_request response_text fresh_id fresh_session now upd body tasks).1.status =
            400 →
          (handle_request response_text fresh_id fresh_session now upd body tasks).1.body.id =
            RequestId.null) := by
  refine ⟨?_, ?_, ?_⟩
  · intro request tasks resp h
    cases hg : dictGet tasks request.params.id with
    | none => simp [on_get_task, hg, JSONRPCError.validate] at h
    | some t =>
        cases hl : request.params.historyLength with
        | none =>
            simp [on_get_task, hg, hl] at h
            rw [← h]
        | some n =>
            simp [on_get_task, hg, hl] at h
            rw [← h]
  · intro response_text now upd request tasks resp h
    cases hp : request.params.message.parts with
    | nil => simp [on_send_task, hp] at h
    | cons p ps =>
        simp [on_send_task, hp] at h
        rw [← h]
  · intro response_text fresh_id fresh_session now upd body tasks h
    cases hval : A2ARequest_validate_python fresh_id fresh_session body with
    | error e => simp [handle_request, hval]
    | ok r =>
        cases r with
        | get req => simp [handle_request, hval]
        | send req =>
            rcases hs : on_send_task response_text now upd req tasks with ⟨res, tasks1⟩
            cases res with
            | ok resp => simp [handle_request, hval, hs] at h
            | error e => simp [handle_request, hval, hs]

/-- Witness for C8's amended statement at concrete inputs: a concrete get,
a concrete send, and one concrete request for each failure path the
server's exception handler catches — an unrecognised method, a valid
"tasks/get" (the ValueError path), and a "tasks/send" whose message has no
parts (the IndexError path). -/
theorem response_id_echo_amended_witness :
    ({ id := RequestId.str "rq", result := some (storedTask "t1" [userMsg "1"])
       error := none } : GetTaskResponse).id = RequestId.str "rq" ∧
    ({ id := RequestId.str "rs"
       result := some
         { id := "t1", status := { state := "completed", timestamp := 1 }
           history := [userMsg "hi",
             { role := "agent", parts := [{ type := "text", text := "re" }] }] }
       error := none } : SendTaskResponse).id = RequestId.str "rs" ∧
    (handle_request "reply" "fid" "fs" 0 0 badMethodBody []).1.body.id = RequestId.null ∧
    (handle_request "reply" "fid" "fs" 0 0 getMethodBody
        [("t1", storedTask "t1" [userMsg "1"])]).1.body.id = RequestId.null ∧
    (handle_request "reply" "fid" "fs" 0 0 emptyPartsBody []).1.body.id = RequestId.null := by
  refine ⟨?_, ?_, ?_, ?_, ?_⟩
  · exact response_id_echo_amended.1
      { id := .str "rq", params := { id := "t1" } }
      [("t1", storedTask "t1" [userMsg "1"])] _ rfl
  · exact response_id_echo_amended.2.1 "re" 0 1
      { id := .str "rs", params := sendParams "t1" "hi" } [] _ rfl
  · exact response_id_echo_amended.2.2 "reply" "fid" "fs" 0 0 badMethodBody [] rfl
  · exact response_id_echo_amended.2.2 "reply" "fid" "fs" 0 0 getMethodBody
      [("t1", storedTask "t1" [userMsg "1"])] rfl
  · exact response_id_echo_amended.2.2 "reply" "fid" "fs" 0 0 emptyPartsBody [] rfl

end A2A
